import Mathlib

/-!
Verification development for the videoclipper repository.

Shallow embedding of the pure computational core of the pipeline:
  - voiceover.py: the fallback word-timing estimator
  - video_processor.py: caption cue times, the cut-stage filter construction,
    and the tiered subtitle-burn strategy
  - gemini_ai.py: timestamp parsing and clip-selection fallback
  - main.py: progress-step accounting and the module import list
  - api.py: the job registry logic of start_processing

Machine integers are modelled as Nat/Int/Rat; Python exceptions as Except;
the effects of the external transcoding engine as explicit outcome parameters.
-/

namespace VideoClipper

/-- A word-timing record, Python dict `\x7b"word", "start_ms", "end_ms"\x7d`
(all millisecond values in the relevant call sites are non-negative ints). -/
structure WordTiming where
  word : String
  start_ms : ℕ
  end_ms : ℕ
  deriving DecidableEq, Repr

/-- Python `str.strip()`: remove whitespace from both ends. -/
def pyStrip (s : String) : String :=
  String.mk (((s.toList.dropWhile Char.isWhitespace).reverse.dropWhile
    Char.isWhitespace).reverse)

/-- Python `str.upper()`: uppercase every character. -/
def pyUpper (s : String) : String :=
  String.mk (s.toList.map Char.toUpper)

/-- Helper for Python `str.split()` with no separator: walk the characters,
closing the current field at each whitespace run and dropping empty fields. -/
def splitWsAux : List Char → List Char → List String
  | [], acc => if acc.isEmpty then [] else [String.mk acc.reverse]
  | c :: cs, acc =>
    if c.isWhitespace then
      (if acc.isEmpty then [] else [String.mk acc.reverse]) ++ splitWsAux cs []
    else
      splitWsAux cs (c :: acc)

/-- Python `str.split()` with no separator: split on whitespace runs and drop
empty fields (used by voiceover._estimate_word_timings as `text.split()`). -/
def pySplitWhitespace (s : String) : List String :=
  splitWsAux s.toList []

/-- Helper for Python `str.split(":")`: fields between colons, empties kept. -/
def splitColonAux : List Char → List Char → List (List Char)
  | [], acc => [acc.reverse]
  | c :: cs, acc =>
    if c = ':' then acc.reverse :: splitColonAux cs [] else splitColonAux cs (c :: acc)

/-- Python `str.split(":")`: split on every colon, keeping empty fields (the
empty string yields one empty field). -/
def pySplitColon (s : String) : List String :=
  (splitColonAux s.toList []).map String.mk

/-- Python `str.startswith(p)`. -/
def pyStartsWith (s : String) (p : List Char) : Bool :=
  p.isPrefixOf s.toList

/-- The loop body of voiceover._estimate_word_timings: walk the word list with a
cursor `current_ms`; each word gets duration `max(150, len(word) * 60)` and the
cursor then advances by `duration + 50`. -/
def estimateGo : List String → ℕ → List WordTiming
  | [], _ => []
  | w :: ws, current_ms =>
    let duration := max 150 (w.length * 60)
    { word := w, start_ms := current_ms, end_ms := current_ms + duration } ::
      estimateGo ws (current_ms + duration + 50)

/-- voiceover._estimate_word_timings: fallback word-timing estimation from text,
starting the cursor at 0 ms. -/
def estimate_word_timings (text : String) : List WordTiming :=
  estimateGo (pySplitWhitespace text) 0

/-- The dialogue time window computed by video_processor.generate_ass_subtitles
for one timing record: the word is stripped and uppercased and, when empty, the
record is skipped; otherwise the voiceover delay is added to both endpoints and
the end is extended forward to give at least 150 ms of display. -/
def ass_dialogue_time (voiceover_delay_ms : ℕ) (timing : WordTiming) : Option (ℕ × ℕ) :=
  let word := pyUpper (pyStrip timing.word)
  if word = "" then none
  else
    let start_ms := timing.start_ms + voiceover_delay_ms
    let end_ms := timing.end_ms + voiceover_delay_ms
    let end_ms := if end_ms - start_ms < 150 then start_ms + 150 else end_ms
    some (start_ms, end_ms)

/-- The ordered (start, end) windows of the Dialogue lines emitted by
video_processor.generate_ass_subtitles. -/
def generate_ass_dialogue_times (word_timings : List WordTiming)
    (voiceover_delay_ms : ℕ) : List (ℕ × ℕ) :=
  word_timings.filterMap (ass_dialogue_time voiceover_delay_ms)

/-- Python `int(s)`: strip surrounding whitespace, then an optional sign
followed by a non-empty run of decimal digits; any other shape raises
ValueError. (Digit-grouping underscores of Python literals are not modelled;
no call site of the parser produces them.) -/
def pyInt (s : String) : Except String ℤ :=
  let cs := (pyStrip s).toList
  let signAndDigits : ℤ × List Char :=
    match cs with
    | '-' :: rest => (-1, rest)
    | '+' :: rest => (1, rest)
    | _ => (1, cs)
  let ds := signAndDigits.2
  if ds.isEmpty || !(ds.all Char.isDigit) then
    .error "ValueError: invalid literal for int with base 10"
  else
    .ok (signAndDigits.1 * (ds.foldl (fun a c => 10 * a + (c.toNat - 48)) 0 : ℕ))

/-- gemini_ai.timestamp_to_seconds: split the stripped text on ":"; two fields
give minutes:seconds, three give hours:minutes:seconds, any other field count
returns 0.0. Each field goes through Python int(), which can raise. -/
def timestamp_to_seconds (ts : String) : Except String ℚ :=
  match pySplitColon (pyStrip ts) with
  | [a, b] => do
    let x ← pyInt a
    let y ← pyInt b
    pure ((x * 60 + y : ℤ) : ℚ)
  | [a, b, c] => do
    let x ← pyInt a
    let y ← pyInt b
    let z ← pyInt c
    pure ((x * 3600 + y * 60 + z : ℤ) : ℚ)
  | _ => pure 0

/-- A clip boundary object as produced by gemini_ai.select_best_clips. -/
structure Clip where
  clip_number : ℕ
  start_time : String
  end_time : String
  title : String
  reason : String
  hook : String
  deriving DecidableEq, Repr

/-- config.NUM_CLIPS. -/
def NUM_CLIPS : ℕ := 1

/-- The response shapes distinguished by the post-parse normalisation in
gemini_ai.select_best_clips: parse/API failure (data = []), a JSON array, a
dict with a "clips" key, a dict with a "segments" key, a dict whose keys are
all digits or clip-prefixed, a single-clip dict carrying start_time and
end_time, or any other dict. -/
inductive AIResponse
  | parseError
  | arr (clips : List Clip)
  | objClips (clips : List Clip)
  | objSegments (clips : List Clip)
  | objNumbered (clips : List Clip)
  | objSingleClip (c : Clip)
  | objOther
  deriving Repr

/-- The clips_list extracted from the response by select_best_clips. -/
def clips_list_of : AIResponse → List Clip
  | .parseError => []
  | .arr clips => clips
  | .objClips clips => clips
  | .objSegments clips => clips
  | .objNumbered clips => clips
  | .objSingleClip c => [c]
  | .objOther => []

/-- The hard-coded fallback clip of select_best_clips: boundaries 00:15 to
01:05 regardless of the source video. -/
def fallback_clip (video_title : String) : Clip :=
  { clip_number := 1, start_time := "00:15", end_time := "01:05",
    title := video_title.take 50, reason := "AI fallback selection",
    hook := "You need to see this!" }

/-- Tail of gemini_ai.select_best_clips: normalise the parsed response to a
clip list, substitute the fixed fallback clip when that list is empty, and
truncate to NUM_CLIPS. -/
def select_best_clips (response : AIResponse) (video_title : String) : List Clip :=
  let clips_list := clips_list_of response
  let clips_list := if clips_list.isEmpty then [fallback_clip video_title] else clips_list
  clips_list.take NUM_CLIPS

/-- The local variables in scope when video_processor.cut_clip builds its vf
filter f-string: the parameters and the assigned duration. No name fade_out
is ever assigned in cut_clip (or anywhere in video_processor.py). -/
def cut_clip_locals (start_seconds end_seconds : ℚ) : List (String × ℚ) :=
  [("start_seconds", start_seconds), ("end_seconds", end_seconds),
   ("duration", end_seconds - start_seconds)]

/-- Python name resolution inside an f-string: an unbound name raises
NameError. -/
def lookup_name (env : List (String × ℚ)) (name : String) : Except String ℚ :=
  match env.find? (fun p => p.1 == name) with
  | some p => .ok p.2
  | none => .error ("NameError: name " ++ name ++ " is not defined")

/-- The vf filter f-string of video_processor.cut_clip. It interpolates the
bound local duration and the name fade_out, which is unbound; the single-quote
characters of the crop sub-expressions are elided from the text. -/
def cut_clip_vf (start_seconds end_seconds : ℚ) : Except String String := do
  let env := cut_clip_locals start_seconds end_seconds
  let duration ← lookup_name env "duration"
  let fade_out ← lookup_name env "fade_out"
  .ok ("crop=ih*9/16:ih,scale=792:1408,crop=720:1280" ++
    ":36-10*pow(t/" ++ toString duration ++ ",0.7)+between(t,1.8,2.5)*3*sin(25*t)" ++
    ":64-15*pow(t/" ++ toString duration ++ ",0.7)+between(t,1.8,2.5)*3*cos(20*t)," ++
    "eq=contrast=1.1:saturation=1.2:brightness=0.01,vignette=PI/6," ++
    "fade=in:st=0:d=0.5,fade=out:st=" ++ toString fade_out ++ ":d=0.5")

/-- Top-level names defined by src/video_processor.py. -/
def video_processor_defs : List String :=
  ["cut_clip", "mix_voiceover", "ms_to_ass_time", "generate_ass_subtitles",
   "add_subtitles", "cleanup_temp_files"]

/-- The names src/main.py line 20 imports from video_processor. -/
def main_video_processor_imports : List String :=
  ["cut_clip", "mix_audio", "add_subtitles", "cleanup_temp_files"]

/-- A Python from-module-import of a list of names succeeds iff the module
defines every one of them; otherwise loading the importing module fails with
ImportError. -/
def from_import_ok (defs imports : List String) : Bool :=
  imports.all (fun n => defs.contains n)

/-- Parameter count of video_processor.mix_voiceover
(clip_path, voiceover_path, music_path, clip_index). -/
def mix_voiceover_param_count : ℕ := 4

/-- Argument count at the mix-stage call site in main.process_video:
mix_audio(clip_path, music_path, clip_num). -/
def mix_audio_call_arg_count : ℕ := 3

/-- Job status values of the api.py registry. -/
inductive JobStatus
  | processing
  | completed
  | failed
  deriving DecidableEq, Repr

/-- A registry record (the fields relevant to admission, eviction and
progress); the jobs dict preserves insertion order, modelled as a list with
the oldest record first. -/
structure JobRecord where
  id : String
  status : JobStatus
  progress : ℕ
  deriving DecidableEq, Repr

instance {ε α : Type} [DecidableEq ε] [DecidableEq α] : DecidableEq (Except ε α) := fun a b =>
  match a, b with
  | .error e, .error f =>
    if h : e = f then .isTrue (h ▸ rfl) else .isFalse (fun hh => h (Except.error.inj hh))
  | .ok x, .ok y =>
    if h : x = y then .isTrue (h ▸ rfl) else .isFalse (fun hh => h (Except.ok.inj hh))
  | .error _, .ok _ => .isFalse (fun hh => Except.noConfusion hh)
  | .ok _, .error _ => .isFalse (fun hh => Except.noConfusion hh)

/-- Result of one call to api.start_processing: the HTTP response (error code
for an HTTPException, otherwise the new job id), the registry after the call,
and whether a worker thread was started. -/
structure StartResult where
  response : Except ℕ String
  registry : List JobRecord
  workerStarted : Bool
  deriving DecidableEq, Repr

/-- api.start_processing: reject an empty or non-http URL with 400; reject
with 409 when any record has status processing; otherwise, when the registry
holds more than 20 records, delete the first-inserted one, then insert the new
record with status processing and progress 0 and start the worker thread. -/
def start_processing (jobs : List JobRecord) (url : String) (job_id : String) : StartResult :=
  if pyStrip url = "" then
    { response := .error 400, registry := jobs, workerStarted := false }
  else if !(pyStartsWith url ['h', 't', 't', 'p']) then
    { response := .error 400, registry := jobs, workerStarted := false }
  else if jobs.any (fun j => j.status == .processing) then
    { response := .error 409, registry := jobs, workerStarted := false }
  else
    let jobs1 := if jobs.length > 20 then jobs.tail else jobs
    { response := .ok job_id,
      registry := jobs1 ++ [{ id := job_id, status := .processing, progress := 0 }],
      workerStarted := true }

/-- Outcome of one subtitle-burn strategy in video_processor.add_subtitles:
the engine succeeds (returncode 0), the engine fails (non-zero returncode,
logged and fallen through), or an exception is raised inside the strategy's
try block (caught, logged and fallen through). -/
inductive RenderOutcome
  | success
  | engineFail
  | raised
  deriving DecidableEq, Repr

/-- Body of one strategy's try block: some output path on success, none on an
engine failure; a raised exception is the error case. -/
def tier_attempt (outcome : RenderOutcome) (output_path : String) :
    Except String (Option String) :=
  match outcome with
  | .success => .ok (some output_path)
  | .engineFail => .ok none
  | .raised => .error "exception"

/-- A Python try/except-Exception wrapper that turns a caught exception into a
fall-through value. -/
def pyTryOr {α : Type} (body : Except String α) (fallback : α) : α :=
  match body with
  | .ok a => a
  | .error _ => fallback

/-- video_processor.add_subtitles: strategy 1 (timed ASS captions) is
attempted only when word_timings is non-empty; on its failure strategy 2
(plain SRT) is attempted; when both fail the input video path is returned
unchanged. The result type records that the function itself never raises. -/
def add_subtitles (word_timings : List WordTiming) (tier1 tier2 : RenderOutcome)
    (output_path video_path : String) : Except String String :=
  let r1 : Option String :=
    if word_timings.isEmpty then none
    else pyTryOr (tier_attempt tier1 output_path) none
  match r1 with
  | some p => .ok p
  | none =>
    match pyTryOr (tier_attempt tier2 output_path) none with
    | some p => .ok p
    | none => .ok video_path

/-- main.process_video: total_steps = 5 + (NUM_CLIPS * 3), computed up front. -/
def total_steps (num_clips : ℕ) : ℕ := 5 + num_clips * 3

/-- main.step_progress: percent = int((current_step / total_steps) * 100).
The Python float computation truncates toward zero; it is modelled as Nat
floor division, which agrees at every step boundary reached by the loop (the
quotient is computed from exact small integers and the final step gives
exactly 100). -/
def step_percent (num_clips current_step : ℕ) : ℕ :=
  current_step * 100 / total_steps num_clips

/-- The sequence of progress percents written to the job record during one
job run: 0 at submission and at the initial update_progress call, then one
step_progress report per completed step, then 100 when api._run_job marks the
job completed. -/
def reported_percents (num_clips : ℕ) : List ℕ :=
  0 :: ((List.range (total_steps num_clips)).map
          (fun i => step_percent num_clips (i + 1)) ++ [100])

/-! Theorems. -/

/-- C1: the claim says the fade-out window of the cut stage is anchored at
max(0, D - 0.5) so cut_clip can always construct its filter string. The spec
states the intended computation, but cut_clip never assigns fade_out, so for
every start and end time the f-string interpolation raises NameError and no
filter string is ever constructed: the code contradicts the documented
intent. -/
theorem cut_clip_vf_raises_nameError (start_seconds end_seconds : ℚ) :
    cut_clip_vf start_seconds end_seconds =
      .error "NameError: name fade_out is not defined" := rfl

/-- C2: main.py imports the name mix_audio from video_processor, which defines
only mix_voiceover (a four-parameter function, while the mix call site passes
three arguments), so the from-import fails and loading the pipeline module can
never reach the mix stage. -/
theorem main_import_mix_audio_fails :
    from_import_ok video_processor_defs main_video_processor_imports = false ∧
    video_processor_defs.contains "mix_audio" = false ∧
    video_processor_defs.contains "mix_voiceover" = true ∧
    mix_voiceover_param_count = 4 ∧
    mix_audio_call_arg_count = 3 := by
  refine ⟨?_, ?_, ?_, rfl, rfl⟩ <;> rfl

theorem estimateGo_spec (ws : List String) (cur : ℕ) :
    List.Chain' (fun a b : WordTiming =>
        a.start_ms < b.start_ms ∧ b.start_ms = a.end_ms + 50) (estimateGo ws cur) ∧
    ∀ t ∈ estimateGo ws cur, t.end_ms = t.start_ms + max 150 (t.word.length * 60) := by
  induction ws generalizing cur with
  | nil => simp [estimateGo]
  | cons w ws ih =>
    obtain ⟨ihc, ihm⟩ := ih (cur + max 150 (w.length * 60) + 50)
    constructor
    · rw [estimateGo, List.chain'_cons']
      refine ⟨?_, ihc⟩
      intro b hb
      cases ws with
      | nil => simp [estimateGo] at hb
      | cons w' ws' =>
        rw [estimateGo] at hb
        simp only [List.head?_cons, Option.mem_def, Option.some.injEq] at hb
        subst hb
        constructor
        · simp only
          have : 0 < max 150 (w.length * 60) := lt_of_lt_of_le (by norm_num) (le_max_left _ _)
          omega
        · simp only
    · intro t ht
      rw [estimateGo] at ht
      rcases List.mem_cons.mp ht with rfl | ht
      · simp
      · exact ihm t ht

/-- C9: for every input text, the fallback word-timing estimator produces
records whose start times are strictly increasing, whose consecutive words are
separated by exactly the 50 ms gap (next start = previous end + 50), and whose
every duration equals max(150, 60 * character count), hence is at least the
150 ms floor and otherwise proportional to word length. The output is a
function of the text alone, so it is deterministic. -/
theorem estimate_word_timings_spec (text : String) :
    List.Chain' (fun a b : WordTiming =>
        a.start_ms < b.start_ms ∧ b.start_ms = a.end_ms + 50)
      (estimate_word_timings text) ∧
    ∀ t ∈ estimate_word_timings text,
      t.end_ms = t.start_ms + max 150 (t.word.length * 60) ∧
      150 ≤ t.end_ms - t.start_ms := by
  obtain ⟨hc, hm⟩ := estimateGo_spec (pySplitWhitespace text) 0
  refine ⟨hc, fun t ht => ⟨hm t ht, ?_⟩⟩
  have h := hm t ht
  have h150 : 150 ≤ max 150 (t.word.length * 60) := le_max_left _ _
  omega

/-- Witness for C9 at the concrete text "hi there". -/
theorem estimate_word_timings_spec_witness :
    (⟨"hi", 0, 150⟩ : WordTiming).end_ms =
        (⟨"hi", 0, 150⟩ : WordTiming).start_ms +
          max 150 ((⟨"hi", 0, 150⟩ : WordTiming).word.length * 60) ∧
    150 ≤ (⟨"hi", 0, 150⟩ : WordTiming).end_ms -
        (⟨"hi", 0, 150⟩ : WordTiming).start_ms :=
  (estimate_word_timings_spec "hi there").2 ⟨"hi", 0, 150⟩ (by decide)

/-- C3 counterexample: the claim asserts non-overlap for every list of word
timings, but the minimum-display clamp extends a cue's end past the next cue's
start whenever two input words start less than 150 ms apart. With words at
0-10 ms and 20-30 ms (delay 2000 ms), the first cue is clamped to end 2150
while the second starts at 2020. -/
theorem generate_ass_overlap_cex :
    generate_ass_dialogue_times [⟨"a", 0, 10⟩, ⟨"b", 20, 30⟩] 2000 =
      [(2000, 2150), (2020, 2170)] ∧
    ¬ List.Pairwise (fun p q : ℕ × ℕ => p.2 ≤ q.1)
        (generate_ass_dialogue_times [⟨"a", 0, 10⟩, ⟨"b", 20, 30⟩] 2000) := by
  constructor
  · rfl
  · decide

/-- C3 amended: for every list of word timings whose consecutive entries are
disjoint and whose consecutive starts are at least 150 ms apart (both hold for
the word timings the estimator produces), the cues emitted by the caption
builder are pairwise non-overlapping: every cue's clamped end time is at most
every later cue's start time. -/
theorem generate_ass_dialogue_times_nonoverlapping (word_timings : List WordTiming)
    (voiceover_delay_ms : ℕ)
    (h : List.Chain' (fun a b : WordTiming =>
           a.end_ms ≤ b.start_ms ∧ a.start_ms + 150 ≤ b.start_ms) word_timings) :
    List.Pairwise (fun p q : ℕ × ℕ => p.2 ≤ q.1)
      (generate_ass_dialogue_times word_timings voiceover_delay_ms) := by
  have hp : List.Pairwise (fun a b : WordTiming =>
      a.end_ms ≤ b.start_ms ∧ a.start_ms + 150 ≤ b.start_ms) word_timings := by
    letI : IsTrans WordTiming
        (fun a b => a.end_ms ≤ b.start_ms ∧ a.start_ms + 150 ≤ b.start_ms) :=
      ⟨fun _ _ _ hab hbc => ⟨by omega, by omega⟩⟩
    exact List.chain'_iff_pairwise.mp h
  refine List.Pairwise.filterMap _ ?_ hp
  intro a b hab x hx y hy
  obtain ⟨h1, h2⟩ := hab
  simp only [ass_dialogue_time, Option.mem_def] at hx hy
  split at hx
  · exact absurd hx (by simp)
  · split at hy
    · exact absurd hy (by simp)
    · injection hx with hx
      injection hy with hy
      subst hx
      subst hy
      simp only
      split <;> omega

/-- Witness for the amended C3 at the concrete estimator-shaped timing list
[hello 0-300, world 500-800] with the default 2000 ms delay. -/
theorem generate_ass_dialogue_times_nonoverlapping_witness :
    List.Pairwise (fun p q : ℕ × ℕ => p.2 ≤ q.1)
      (generate_ass_dialogue_times [⟨"hello", 0, 300⟩, ⟨"world", 500, 800⟩] 2000) :=
  generate_ass_dialogue_times_nonoverlapping
    [⟨"hello", 0, 300⟩, ⟨"world", 500, 800⟩] 2000
    (by simp [List.chain'_cons])

/-- C4 counterexample: the claim says the timestamp parser returns 0 on any
malformed input and never raises. On "aa:bb" the field count is 2, so each
field is passed to Python int(), which raises ValueError — the parser is not
total on all strings. -/
theorem timestamp_to_seconds_raises_cex :
    timestamp_to_seconds "aa:bb" =
      .error "ValueError: invalid literal for int with base 10" := rfl

/-- C4 amended: the parser accepts MM:SS and HH:MM:SS (two colon-separated
integer fields give minutes*60 + seconds, three give hours*3600 +
minutes*60 + seconds) and returns 0 when the colon-field count is neither 2
nor 3; however, a 2- or 3-field input whose field is not an integer literal
raises ValueError, so the parser is total only away from those inputs. -/
theorem timestamp_to_seconds_amended (ts : String) :
    ((pySplitColon (pyStrip ts)).length ≠ 2 → (pySplitColon (pyStrip ts)).length ≠ 3 →
        timestamp_to_seconds ts = .ok 0) ∧
    (∀ a b x y, pySplitColon (pyStrip ts) = [a, b] →
        pyInt a = .ok x → pyInt b = .ok y →
        timestamp_to_seconds ts = .ok ((x * 60 + y : ℤ) : ℚ)) ∧
    (∀ a b c x y z, pySplitColon (pyStrip ts) = [a, b, c] →
        pyInt a = .ok x → pyInt b = .ok y → pyInt c = .ok z →
        timestamp_to_seconds ts = .ok ((x * 3600 + y * 60 + z : ℤ) : ℚ)) := by
  refine ⟨?_, ?_, ?_⟩
  · intro h2 h3
    unfold timestamp_to_seconds
    rcases hps : pySplitColon (pyStrip ts) with _ | ⟨a, _ | ⟨b, _ | ⟨c, _ | ⟨d, rest⟩⟩⟩⟩ <;>
      rw [hps] at h2 h3 <;> first | rfl | simp_all
  · intro a b x y hps ha hb
    unfold timestamp_to_seconds
    simp [hps, ha, hb]
    rfl
  · intro a b c x y z hps ha hb hc
    unfold timestamp_to_seconds
    simp [hps, ha, hb, hc]
    rfl

/-- Witness for the amended C4 at the concrete inputs "1:2:3:4" (four fields,
soft zero) and "12:34" (well-formed MM:SS). -/
theorem timestamp_to_seconds_amended_witness :
    timestamp_to_seconds "1:2:3:4" = .ok 0 ∧
    timestamp_to_seconds "12:34" = .ok ((12 * 60 + 34 : ℤ) : ℚ) :=
  ⟨(timestamp_to_seconds_amended "1:2:3:4").1 (by decide) (by decide),
   (timestamp_to_seconds_amended "12:34").2.1 "12" "34" 12 34
     (by decide) (by decide) (by decide)⟩

/-- C5 counterexample: the claim says the fallback clip is centered in the
source video. The fallback boundaries are the constants 00:15 and 01:05
(seconds 15 to 65, midpoint 40): select_best_clips takes no source-duration
input at all, and for a 300-second source the center would be at 150 s, so the
substituted clip is not centered in that source. -/
theorem select_best_clips_not_centered_cex :
    select_best_clips .parseError "Some Title" = [fallback_clip "Some Title"] ∧
    timestamp_to_seconds (fallback_clip "Some Title").start_time = .ok 15 ∧
    timestamp_to_seconds (fallback_clip "Some Title").end_time = .ok 65 ∧
    ¬ ((15 + 65 : ℚ) / 2 = 300 / 2) := by
  refine ⟨rfl, by decide, by decide, by norm_num⟩

/-- C5 amended: whenever clip selection yields zero usable boundaries (empty,
unparseable, or malformed response), select_best_clips returns exactly the one
fixed fallback clip with boundaries 00:15 to 01:05 (independent of the source
video), and for every response it never returns an empty list. -/
theorem select_best_clips_fallback (response : AIResponse) (video_title : String) :
    (clips_list_of response = [] →
        select_best_clips response video_title = [fallback_clip video_title]) ∧
    select_best_clips response video_title ≠ [] := by
  unfold select_best_clips
  rcases h : clips_list_of response with _ | ⟨c, cs⟩ <;> simp [NUM_CLIPS, h]

/-- Witness for the amended C5 at the concrete parse-failure response. -/
theorem select_best_clips_fallback_witness :
    select_best_clips .parseError "t" = [fallback_clip "t"] ∧
    select_best_clips .parseError "t" ≠ [] :=
  ⟨(select_best_clips_fallback .parseError "t").1 rfl,
   (select_best_clips_fallback .parseError "t").2⟩

/-- C6 counterexample: with exactly 20 existing records (all terminal),
submitting job #21 triggers no eviction at all — the guard fires only when the
registry already holds more than 20 records — so the registry grows to 21 and
the oldest record is still present. -/
theorem start_processing_job21_no_eviction_cex :
    (start_processing (List.replicate 20 ⟨"old", .completed, 100⟩)
        "http://v" "j21").registry =
      List.replicate 20 (⟨"old", .completed, 100⟩ : JobRecord) ++
        [⟨"j21", .processing, 0⟩] ∧
    (start_processing (List.replicate 20 ⟨"old", .completed, 100⟩)
        "http://v" "j21").registry.length = 21 := by
  constructor <;> decide

/-- C6 amended: eviction triggers when the registry holds more than the cap of
20 records at submission (so at job #22, not job #21) and removes the oldest
(first-inserted) record; because a submission is accepted only when no record
has status processing, every record present at eviction time — the evicted one
included — is non-processing. -/
theorem start_processing_eviction (jobs : List JobRecord) (url job_id : String)
    (hlen : jobs.length > 20)
    (hacc : (start_processing jobs url job_id).workerStarted = true) :
    (start_processing jobs url job_id).registry =
      jobs.tail ++ [⟨job_id, .processing, 0⟩] ∧
    ∀ j ∈ jobs, j.status ≠ .processing := by
  unfold start_processing at hacc ⊢
  by_cases h1 : pyStrip url = ""
  · simp [h1] at hacc
  · by_cases h2 : pyStartsWith url ['h', 't', 't', 'p'] = true
    · by_cases h3 : jobs.any (fun j => j.status == .processing) = true
      · simp [h1, h2, h3] at hacc
      · have hany : jobs.any (fun j => j.status == .processing) = false := by
          simp only [Bool.not_eq_true] at h3
          exact h3
        have h3m : ∀ j ∈ jobs, j.status ≠ .processing := by
          simp only [List.any_eq_false, beq_iff_eq] at hany
          exact hany
        refine ⟨by simp [h1, h2, hany, hlen], h3m⟩
    · simp [h1, h2] at hacc

/-- Witness for the amended C6: a 21-record registry of terminal jobs accepts
job #22 and evicts exactly the first record. -/
theorem start_processing_eviction_witness :
    (start_processing (List.replicate 21 ⟨"old", .completed, 100⟩)
        "http://v" "j22").registry =
      (List.replicate 21 (⟨"old", .completed, 100⟩ : JobRecord)).tail ++
        [⟨"j22", .processing, 0⟩] ∧
    ∀ j ∈ List.replicate 21 (⟨"old", .completed, 100⟩ : JobRecord),
      j.status ≠ .processing :=
  start_processing_eviction (List.replicate 21 ⟨"old", .completed, 100⟩)
    "http://v" "j22" (by decide) (by decide)

/-- C7: with a syntactically valid URL, submitting while some record has
status processing yields HTTP 409 with the registry unchanged and no worker
thread started; submitting when every record is completed or failed is
accepted, returns the new job id and starts the worker. -/
theorem start_processing_single_flight (jobs : List JobRecord) (url job_id : String)
    (hurl1 : pyStrip url ≠ "") (hurl2 : pyStartsWith url ['h', 't', 't', 'p'] = true) :
    ((∃ j ∈ jobs, j.status = .processing) →
        (start_processing jobs url job_id).response = .error 409 ∧
        (start_processing jobs url job_id).registry = jobs ∧
        (start_processing jobs url job_id).workerStarted = false) ∧
    ((∀ j ∈ jobs, j.status = .completed ∨ j.status = .failed) →
        (start_processing jobs url job_id).response = .ok job_id ∧
        (start_processing jobs url job_id).workerStarted = true) := by
  unfold start_processing
  constructor
  · rintro ⟨j, hj, hstat⟩
    have hany : jobs.any (fun j => j.status == .processing) = true := by
      simp only [List.any_eq_true, beq_iff_eq]
      exact ⟨j, hj, hstat⟩
    simp [hurl1, hurl2, hany]
  · intro hall
    have hany : jobs.any (fun j => j.status == .processing) = false := by
      simp only [List.any_eq_false, beq_iff_eq]
      intro j hj
      rcases hall j hj with h | h <;> simp [h]
    simp [hurl1, hurl2, hany]

/-- Witness for C7: a processing record is rejected with 409 and nothing
mutated; a registry of one completed record is accepted. -/
theorem start_processing_single_flight_witness :
    ((start_processing [⟨"a", .processing, 50⟩] "http://v" "new").response =
        .error 409 ∧
      (start_processing [⟨"a", .processing, 50⟩] "http://v" "new").registry =
        [⟨"a", .processing, 50⟩] ∧
      (start_processing [⟨"a", .processing, 50⟩] "http://v" "new").workerStarted =
        false) ∧
    ((start_processing [⟨"a", .completed, 100⟩] "http://v" "new2").response =
        .ok "new2" ∧
      (start_processing [⟨"a", .completed, 100⟩] "http://v" "new2").workerStarted =
        true) :=
  ⟨(start_processing_single_flight [⟨"a", .processing, 50⟩] "http://v" "new"
      (by decide) (by decide)).1 ⟨⟨"a", .processing, 50⟩, by decide, rfl⟩,
   (start_processing_single_flight [⟨"a", .completed, 100⟩] "http://v" "new2"
      (by decide) (by decide)).2 (by decide)⟩

/-- C8: for every word-timing list and every combination of render-engine
outcomes for the two burn strategies, add_subtitles returns normally (never
raises): the timed tier-1 render is used when timings exist and it succeeds,
otherwise the plain tier-2 render is used when it succeeds, and when both fail
the input video path is returned unchanged. -/
theorem add_subtitles_tiered (word_timings : List WordTiming)
    (tier1 tier2 : RenderOutcome) (output_path video_path : String) :
    (∃ p, add_subtitles word_timings tier1 tier2 output_path video_path = .ok p) ∧
    (word_timings ≠ [] → tier1 = .success →
        add_subtitles word_timings tier1 tier2 output_path video_path =
          .ok output_path) ∧
    ((word_timings = [] ∨ tier1 ≠ .success) → tier2 = .success →
        add_subtitles word_timings tier1 tier2 output_path video_path =
          .ok output_path) ∧
    ((word_timings = [] ∨ tier1 ≠ .success) → tier2 ≠ .success →
        add_subtitles word_timings tier1 tier2 output_path video_path =
          .ok video_path) := by
  cases word_timings <;> cases tier1 <;> cases tier2 <;>
    simp [add_subtitles, tier_attempt, pyTryOr]

/-- Witness for C8: timings present, tier 1 engine failure, tier 2 success. -/
theorem add_subtitles_tiered_witness :
    add_subtitles [⟨"w", 0, 200⟩] .engineFail .success "out.mp4" "in.mp4" =
      .ok "out.mp4" :=
  (add_subtitles_tiered [⟨"w", 0, 200⟩] .engineFail .success "out.mp4" "in.mp4").2.2.1
    (Or.inr (by decide)) rfl

/-- C10: within one job run the reported progress sequence starts at 0, ends
at 100, and is monotonically non-decreasing: every report is the floor of
(steps completed so far) * 100 over the fixed total step count computed up
front, the step counter rises by one per completed step, and the completion
write sets 100. -/
theorem progress_reports_monotone (num_clips : ℕ) :
    (reported_percents num_clips).head? = some 0 ∧
    (reported_percents num_clips).getLast? = some 100 ∧
    List.Pairwise (· ≤ ·) (reported_percents num_clips) := by
  have hT : 0 < total_steps num_clips := by simp [total_steps]
  have hrw : reported_percents num_clips =
      ((List.range (total_steps num_clips + 1)).map (step_percent num_clips)) ++ [100] := by
    simp [reported_percents, List.range_succ_eq_map, List.map_map, Function.comp,
      step_percent]
  refine ⟨rfl, ?_, ?_⟩
  · rw [hrw, List.getLast?_concat]
  · rw [hrw]
    refine List.pairwise_append.mpr ⟨?_, by simp, ?_⟩
    · refine List.Pairwise.map _ ?_ (List.pairwise_lt_range _)
      intro a b hab
      exact Nat.div_le_div_right (Nat.mul_le_mul_right _ (le_of_lt hab))
    · intro a ha b hb
      simp only [List.mem_singleton] at hb
      subst hb
      simp only [List.mem_map, List.mem_range] at ha
      obtain ⟨i, hi, rfl⟩ := ha
      calc step_percent num_clips i
          ≤ total_steps num_clips * 100 / total_steps num_clips :=
            Nat.div_le_div_right (Nat.mul_le_mul_right _ (by omega))
        _ = 100 := by rw [Nat.mul_comm]; exact Nat.mul_div_cancel 100 hT

end VideoClipper
